/-
  Verification of the insight-selection and freshness-rotation engine of
  the retriever_digest repository (src/export/printsmith_export.py).

  Shallow embedding conventions:
  * Calendar dates are modelled as integers counting days from a fixed
    Monday epoch, so that the Python `date.weekday()` is `d % 7`
    (0 = Monday .. 6 = Sunday) and `date - timedelta(days = n)` is `d - n`.
  * Monetary amounts are integers (the source treats them as exact decimal
    quantities coming from the database; no claim depends on fractional
    cents or on display formatting, so rendered currency strings are not
    modelled).
  * SQL rows of the joined `invoicebase` relation are `InvRow`; rows of the
    `account` table are `AccountRow`.  SQL `NULL` is `Option.none`.
    SQL three-valued logic is embedded: a `WHERE` predicate keeps a row
    only when it evaluates to true, so `account_id NOT IN (...)` drops
    rows whose `account_id` is NULL, while the Python `x not in tuple`
    keeps `None`.
  * `ORDER BY k DESC` is a stable merge sort with nulls first (the
    PostgreSQL default for descending order).
-/
import Mathlib

namespace RetrieverDigest

/-- Program work accounts to exclude from highlights and insights
(`EXCLUDED_ACCOUNT_IDS` at the top of printsmith_export.py):
20960 Strategic Healthcare Programs, 17204 CenCal Health. -/
def EXCLUDED_ACCOUNT_IDS : List Int := [20960, 17204]

/-- The five insight types of the catalog, in the registry order of the
`INSIGHT_FUNCTIONS` dict. -/
inductive InsightType where
  | anniversary_reorders
  | lapsed_accounts
  | past_due_accounts
  | hot_streak_accounts
  | high_value_estimates
deriving DecidableEq, Repr

/-- Registry order: the insertion order of the keys of `INSIGHT_FUNCTIONS`
(`list(INSIGHT_FUNCTIONS.keys())`). -/
def INSIGHT_REGISTRY : List InsightType :=
  [.anniversary_reorders, .lapsed_accounts, .past_due_accounts,
   .hot_streak_accounts, .high_value_estimates]

/-- Python `date.weekday()`: 0 = Monday .. 6 = Sunday, with days counted
from a Monday epoch. -/
def weekday (d : Int) : Int := d % 7

/-- `get_target_date_range` (printsmith_export.py lines 65-85): on Monday
return (Friday, Sunday, True); otherwise (yesterday, yesterday, False). -/
def get_target_date_range (today : Int) : Int × Int × Bool :=
  let yesterday := today - 1
  if weekday today = 0 then
    (yesterday - 2, yesterday, true)
  else
    (yesterday, yesterday, false)

/-- `INSIGHT_ROTATION` dict lookup (`INSIGHT_ROTATION.get(day_of_week, ...)`
without the default): the hand-authored weekday table of
`get_ai_insights`. -/
def INSIGHT_ROTATION (d : Int) : Option (List InsightType) :=
  if d = 0 then some [.anniversary_reorders, .hot_streak_accounts, .high_value_estimates]
  else if d = 1 then some [.lapsed_accounts, .past_due_accounts]
  else if d = 2 then some [.hot_streak_accounts, .anniversary_reorders]
  else if d = 3 then some [.high_value_estimates, .lapsed_accounts]
  else if d = 4 then some [.past_due_accounts, .hot_streak_accounts, .anniversary_reorders]
  else if d = 5 then some [.lapsed_accounts, .high_value_estimates]
  else if d = 6 then some [.anniversary_reorders, .lapsed_accounts]
  else none

/-- `INSIGHT_ROTATION.get(day_of_week, list(INSIGHT_FUNCTIONS.keys()))`:
the insight types attempted on a given day, falling back to the full
registry for an unmapped weekday. -/
def todayTypes (d : Int) : List InsightType :=
  (INSIGHT_ROTATION d).getD INSIGHT_REGISTRY

/-- A row of the `account` table, restricted to the columns the queries
of the source read. -/
structure AccountRow where
  id : Int
  title : Option String
  balance30day : Option Int
  balance60day : Option Int
  balance90day : Option Int
  balance : Option Int
  isdeleted : Bool
deriving DecidableEq, Repr

/-- A row of `invoicebase`, joined with its `invoice`/`estimate` subtype
record and the `salesrep` table, restricted to the columns read by the
queries of the source.  `isEstimate` records which subtype table the row joins
to (`estimate e ON e.id = ib.id` versus `invoice i ON ib.id = i.id`);
`iDeleted` is the `isdeleted` flag of the joined `invoice` record. -/
structure InvRow where
  invoicenumber : Int
  accountId : Option Int
  subtotal : Option Int
  jobDescription : Option String
  accountName : Option String
  takenby : Option String
  salesrepName : Option String
  pickupdate : Option Int
  ordereddate : Option Int
  isEstimate : Bool
  onpendinglist : Bool
  ibDeleted : Bool
  iDeleted : Bool
  voided : Bool
deriving DecidableEq, Repr

/-- The database the export queries run against. -/
structure DB where
  invbase : List InvRow
  accounts : List AccountRow
deriving DecidableEq, Repr

/-- An insight item (a dict with keys name, detail, value, account_id).
`value` keeps the numeric amount behind the rendered `"$N,NNN"` string;
`detail` display strings are presentation-only and carry no verified
property, so they are not modelled. -/
structure InsightItem where
  name : String
  value : Option Int
  accountId : Option Int
deriving DecidableEq, Repr

/-- An insight block as returned by a generator. -/
structure Insight where
  type : InsightType
  title : String
  message : String
  items : List InsightItem
deriving DecidableEq, Repr

/- ------------------------------------------------------------------
   Shared helpers mirroring Python / SQL idioms
   ------------------------------------------------------------------ -/

/-- Python truthiness of an optional string followed by an `or` fallback
to the Unknown label: NULL and the empty string fall back. -/
def orUnknown : Option String → String
  | none => "Unknown"
  | some s => if s = "" then "Unknown" else s

/-- Python truthiness of an optional integer (`if row[i]:`):
`None` and `0` are falsy. -/
def truthyId : Option Int → Bool
  | none => false
  | some a => a != 0

/-- Python truthiness of an optional amount, used for
`f"${...}" if row[i] else None`: keeps the amount when non-null and
nonzero. -/
def truthyAmount : Option Int → Option Int
  | none => none
  | some a => if a = 0 then none else some a

/-- SQL `ib.account_id NOT IN (set)`: three-valued logic selects the row
only when `account_id` is non-NULL and outside the set. -/
def notInExcluded (aid : Option Int) (ex : Finset Int) : Bool :=
  match aid with
  | none => false
  | some a => decide (a ∉ ex)

/-- Python `x not in EXCLUDED_ACCOUNT_IDS` on the dict value account_id:
unlike SQL, `None not in (20960, 17204)` is `True`. -/
def pyNotInExcluded (aid : Option Int) : Bool :=
  match aid with
  | none => true
  | some a => !(EXCLUDED_ACCOUNT_IDS.contains a)

/-- `all_excluded = set(EXCLUDED_ACCOUNT_IDS); if exclude_account_ids:
all_excluded.update(exclude_account_ids)` — the exclusion set each
generator applies (an absent or empty freshness set adds nothing). -/
def allExcluded (excl : Option (Finset Int)) : Finset Int :=
  EXCLUDED_ACCOUNT_IDS.toFinset ∪ (match excl with | none => ∅ | some s => s)

/-- SQL `SUM` over a group: NULLs are ignored and an all-NULL (or empty)
group sums to NULL. -/
def sqlSum (l : List Int) : Option Int :=
  match l with
  | [] => none
  | _ => some l.sum

/-- SQL `MAX` over a group of dates: NULLs ignored, NULL on empty. -/
def sqlMax (l : List Int) : Option Int := l.max?

/-- `LEFT JOIN account a ON ... = a.id` followed by reading `a.title`. -/
def accountTitle (db : DB) (aid : Option Int) : Option String :=
  aid.bind fun i => (db.accounts.find? fun a => a.id == i).bind (·.title)

/-- `ORDER BY k DESC` comparator on a non-null sort key. -/
def descInt (x y : Int) : Bool := decide (y ≤ x)

/-- `ORDER BY k DESC` on a nullable key: PostgreSQL places NULLs first in
descending order. -/
def descOpt (x y : Option Int) : Bool :=
  match x, y with
  | none, _ => true
  | some _, none => false
  | some a, some b => decide (b ≤ a)

/-- Lexicographic two-key descending comparator (`ORDER BY k1 DESC, k2 DESC`)
on non-null keys. -/
def descInt2 (x y : Int × Int) : Bool :=
  if x.1 = y.1 then decide (y.2 ≤ x.2) else decide (y.1 ≤ x.1)

/-- Insert into a sorted list, before the first element the comparator
does not place strictly after (keeping earlier elements first on ties). -/
def orderedInsert (le : α → α → Bool) (a : α) : List α → List α
  | [] => [a]
  | b :: l => if le a b then a :: b :: l else b :: orderedInsert le a l

/-- Stable `ORDER BY`: a stable sort with the given descending comparator
(structurally recursive insertion sort, so that concrete runs evaluate). -/
def sortRows (le : α → α → Bool) : List α → List α
  | [] => []
  | a :: l => orderedInsert le a (sortRows le l)

/-- The `if items: return {...} return None` tail common to all five
generators: an insight with no items is never emitted. -/
def mkBlock (t : InsightType) (title message : String)
    (items : List InsightItem) : Option Insight :=
  if items.isEmpty then none
  else some { type := t, title := title, message := message, items := items }

/- ------------------------------------------------------------------
   The five insight generators (printsmith_export.py lines 797-1172).
   Each takes `qfail : Bool` modelling the per-generator
   `try/except` around the cursor: a failed query leaves `items = []`
   and the generator returns `None`.
   ------------------------------------------------------------------ -/

/-- `WHERE` clause of `get_anniversary_reorders`: pickup date between 11
and 10 months ago, subtotal at least 2000, account not excluded, posted
invoice, not deleted/voided. -/
def anniversaryFilter (today : Int) (ex : Finset Int) (r : InvRow) : Bool :=
  (match r.pickupdate with
   | some d => decide (today - 335 ≤ d) && decide (d ≤ today - 305)
   | none => false)
  && (match r.subtotal with | some s => decide (2000 ≤ s) | none => false)
  && notInExcluded r.accountId ex
  && !r.isEstimate && !r.onpendinglist && !r.ibDeleted && !r.iDeleted && !r.voided

/-- `get_anniversary_reorders` (lines 797-867). -/
def get_anniversary_reorders (db : DB) (today : Int) (qfail : Bool)
    (excl : Option (Finset Int)) : Option Insight :=
  let all_excluded := allExcluded excl
  let rows := (sortRows (fun a b => descOpt a.subtotal b.subtotal)
      (db.invbase.filter (anniversaryFilter today all_excluded))).take 5
  let items := if qfail then [] else rows.map fun r =>
    { name := orUnknown (accountTitle db r.accountId)
      value := truthyAmount r.subtotal
      accountId := r.accountId }
  mkBlock .anniversary_reorders "Anniversary Reorder Opportunities"
    "These customers had large orders 10-11 months ago - time to follow up!" items

/-- Base `WHERE` clause of the `account_stats` CTE of `get_lapsed_accounts`. -/
def lapsedBaseFilter (ex : Finset Int) (r : InvRow) : Bool :=
  !r.isEstimate && !r.onpendinglist && notInExcluded r.accountId ex
  && !r.ibDeleted && !r.iDeleted && !r.voided

/-- One row of the `account_stats` CTE (`GROUP BY account_id` with
`MAX(pickupdate)`, `SUM(subtotal)`, `COUNT(*)`). -/
structure AcctStats where
  accountId : Int
  lastOrderDate : Option Int
  lifetimeValue : Option Int
  orderCount : Nat
deriving DecidableEq, Repr

/-- `GROUP BY account_id` over the filtered rows.  A group key exists only
for non-NULL account ids (NULL ids are already dropped by `NOT IN`). -/
def groupStats (rows : List InvRow) : List AcctStats :=
  ((rows.filterMap (·.accountId)).dedup).map fun i =>
    let grp := rows.filter fun r => r.accountId == some i
    { accountId := i
      lastOrderDate := sqlMax (grp.filterMap (·.pickupdate))
      lifetimeValue := sqlSum (grp.filterMap (·.subtotal))
      orderCount := grp.length }

/-- `get_lapsed_accounts` (lines 870-946): lifetime value at least 5000 and
last order more than six months ago; ordered most-recently-lapsed first,
then lifetime value descending. -/
def get_lapsed_accounts (db : DB) (today : Int) (qfail : Bool)
    (excl : Option (Finset Int)) : Option Insight :=
  let all_excluded := allExcluded excl
  let stats := groupStats (db.invbase.filter (lapsedBaseFilter all_excluded))
  let qualified := stats.filter fun st =>
    (match st.lifetimeValue with | some v => decide (5000 ≤ v) | none => false)
    && (match st.lastOrderDate with | some d => decide (d < today - 180) | none => false)
  let rows := (sortRows (fun a b =>
      descInt2 (a.lastOrderDate.getD 0, a.lifetimeValue.getD 0)
               (b.lastOrderDate.getD 0, b.lifetimeValue.getD 0)) qualified).take 5
  let items := if qfail then [] else rows.map fun st =>
    { name := orUnknown (accountTitle db (some st.accountId))
      value := truthyAmount st.lifetimeValue
      accountId := some st.accountId }
  mkBlock .lapsed_accounts "Lapsed High-Value Accounts"
    "These accounts have not ordered in 6+ months but have strong history." items

/-- Past-due total of an account: `COALESCE(balance30day,0) +
COALESCE(balance60day,0) + COALESCE(balance90day,0)`. -/
def pastDueTotal (a : AccountRow) : Int :=
  a.balance30day.getD 0 + a.balance60day.getD 0 + a.balance90day.getD 0

/-- `get_past_due_accounts` (lines 949-1006): accounts with positive
30/60/90-day aging balance, excluded ids removed, ordered by past-due
total descending. -/
def get_past_due_accounts (db : DB) (qfail : Bool)
    (excl : Option (Finset Int)) : Option Insight :=
  let all_excluded := allExcluded excl
  let qualified := db.accounts.filter fun a =>
    decide (0 < pastDueTotal a) && decide (a.id ∉ all_excluded) && !a.isdeleted
  let rows := (sortRows (fun a b => descInt (pastDueTotal a) (pastDueTotal b))
      qualified).take 5
  let items := if qfail then [] else rows.map fun a =>
    { name := orUnknown a.title
      value := truthyAmount (some (pastDueTotal a))
      accountId := some a.id }
  mkBlock .past_due_accounts "Past Due Accounts"
    "Friendly payment reminder needed!" items

/-- `WHERE` clause of the `recent_orders` CTE of `get_hot_streak_accounts`:
posted invoices picked up in the last three months. -/
def hotRecentFilter (today : Int) (ex : Finset Int) (r : InvRow) : Bool :=
  (match r.pickupdate with | some d => decide (today - 90 ≤ d) | none => false)
  && notInExcluded r.accountId ex
  && !r.isEstimate && !r.onpendinglist && !r.ibDeleted && !r.iDeleted && !r.voided

/-- `WHERE` clause of the `prior_orders` CTE: picked up between six and
three months ago. -/
def hotPriorFilter (today : Int) (ex : Finset Int) (r : InvRow) : Bool :=
  (match r.pickupdate with
   | some d => decide (today - 180 ≤ d) && decide (d < today - 90)
   | none => false)
  && notInExcluded r.accountId ex
  && !r.isEstimate && !r.onpendinglist && !r.ibDeleted && !r.iDeleted && !r.voided

/-- One row of `recent_orders LEFT JOIN prior_orders` with
`COALESCE(prior_count, 0)`. -/
structure HotStats where
  accountId : Int
  recentCount : Nat
  priorCount : Nat
  recentSpend : Option Int
deriving DecidableEq, Repr

/-- `get_hot_streak_accounts` (lines 1009-1103): recent order count exceeds
the prior window and recent spend at least 1000; ordered by frequency
delta descending, then spend descending. -/
def get_hot_streak_accounts (db : DB) (today : Int) (qfail : Bool)
    (excl : Option (Finset Int)) : Option Insight :=
  let all_excluded := allExcluded excl
  let recent := db.invbase.filter (hotRecentFilter today all_excluded)
  let prior := db.invbase.filter (hotPriorFilter today all_excluded)
  let joined := ((recent.filterMap (·.accountId)).dedup).map fun i =>
    let rgrp := recent.filter fun r => r.accountId == some i
    let pgrp := prior.filter fun r => r.accountId == some i
    ({ accountId := i
       recentCount := rgrp.length
       priorCount := pgrp.length
       recentSpend := sqlSum (rgrp.filterMap (·.subtotal)) } : HotStats)
  let qualified := joined.filter fun h =>
    decide (h.priorCount < h.recentCount)
    && (match h.recentSpend with | some s => decide (1000 ≤ s) | none => false)
  let rows := (sortRows (fun a b =>
      descInt2 ((a.recentCount : Int) - (a.priorCount : Int), a.recentSpend.getD 0)
               ((b.recentCount : Int) - (b.priorCount : Int), b.recentSpend.getD 0))
      qualified).take 5
  let items := if qfail then [] else rows.map fun h =>
    { name := orUnknown (accountTitle db (some h.accountId))
      value := truthyAmount h.recentSpend
      accountId := some h.accountId }
  mkBlock .hot_streak_accounts "Hot Streak Accounts"
    "These accounts are ordering more frequently - nurture these relationships!" items

/-- `WHERE` clause of `get_high_value_pending_estimates`: pending estimates
of at least 1000 from non-excluded accounts (estimate queries check only
`ib.isdeleted`). -/
def highValueFilter (ex : Finset Int) (r : InvRow) : Bool :=
  r.isEstimate && r.onpendinglist
  && (match r.subtotal with | some s => decide (1000 ≤ s) | none => false)
  && notInExcluded r.accountId ex
  && !r.ibDeleted && !r.voided

/-- `ORDER BY ordereddate DESC, subtotal DESC` on nullable keys. -/
def descOrderedThenSubtotal (a b : InvRow) : Bool :=
  if a.ordereddate = b.ordereddate then descOpt a.subtotal b.subtotal
  else descOpt a.ordereddate b.ordereddate

/-- `get_high_value_pending_estimates` (lines 1106-1172). -/
def get_high_value_pending_estimates (db : DB) (qfail : Bool)
    (excl : Option (Finset Int)) : Option Insight :=
  let all_excluded := allExcluded excl
  let rows := (sortRows descOrderedThenSubtotal
      (db.invbase.filter (highValueFilter all_excluded))).take 5
  let items := if qfail then [] else rows.map fun r =>
    { name := orUnknown (accountTitle db r.accountId)
      value := truthyAmount r.subtotal
      accountId := r.accountId }
  mkBlock .high_value_estimates "High-Value Pending Estimates"
    "Follow up to close the deal!" items

/-- `INSIGHT_FUNCTIONS` dispatch: the function registered for each insight
type, with the ambient current date made explicit. -/
def runGenerator (t : InsightType) (db : DB) (today : Int) (qfail : Bool)
    (excl : Option (Finset Int)) : Option Insight :=
  match t with
  | .anniversary_reorders => get_anniversary_reorders db today qfail excl
  | .lapsed_accounts => get_lapsed_accounts db today qfail excl
  | .past_due_accounts => get_past_due_accounts db qfail excl
  | .hot_streak_accounts => get_hot_streak_accounts db today qfail excl
  | .high_value_estimates => get_high_value_pending_estimates db qfail excl

/-- The catalog loop of `get_ai_insights` (lines 1217-1231): run the daily
rotation list, catch an exception from any one generator (`.error`),
keep the blocks of the generators that returned one.  `results`
abstracts the outcome of calling each registered generator. -/
def get_ai_insights (results : InsightType → Except String (Option Insight))
    (day : Int) : List Insight :=
  (todayTypes day).foldl (fun acc t =>
    match results t with
    | .ok (some b) => acc ++ [b]
    | .ok none => acc
    | .error _ => acc) []

/-- `get_ai_insights` instantiated with the real generators succeeding
against the database, as in a normal run. -/
def get_ai_insights_pure (db : DB) (today : Int) (excl : Option (Finset Int))
    (day : Int) : List Insight :=
  get_ai_insights (fun t => .ok (runGenerator t db today false excl)) day

/- ------------------------------------------------------------------
   Core data queries feeding highlights and assembly
   (printsmith_export.py lines 175-303), the freshness oracle
   (lines 1238-1289), highlights and assembly (lines 1323-1506), and
   the main flow (lines 1509-1584).
   ------------------------------------------------------------------ -/

/-- An invoice dict as built by `get_completed_invoices` (fields consumed
downstream; `customer_name` already carries the Unknown fallback
and `subtotal` the `float(...) if ... else 0.0` fallback applied at query
time). -/
structure InvoiceRec where
  customer_name : String
  account_name : Option String
  salesrep : String
  subtotal : Int
  job_description : Option String
  account_id : Option Int
deriving DecidableEq, Repr

/-- An estimate dict as built by `get_estimates_created`. -/
structure EstimateRec where
  customer_name : String
  account_name : Option String
  subtotal : Int
  job_description : Option String
  account_id : Option Int
deriving DecidableEq, Repr

/-- `WHERE` clause of `get_completed_invoices`: posted invoices picked up
in the period. -/
def completedFilter (s e : Int) (r : InvRow) : Bool :=
  (match r.pickupdate with | some d => decide (s ≤ d) && decide (d ≤ e) | none => false)
  && !r.isEstimate && !r.onpendinglist && !r.ibDeleted && !r.iDeleted && !r.voided

/-- `get_completed_invoices` (lines 175-241), restricted to the invoice
list (the `total_revenue` comes from a separate `salesbase` query no
claim refers to).  Ordered by subtotal descending. -/
def get_completed_invoices (db : DB) (s e : Int) : List InvoiceRec :=
  (sortRows (fun a b => descOpt a.subtotal b.subtotal)
      (db.invbase.filter (completedFilter s e))).map fun r =>
    { customer_name := orUnknown (accountTitle db r.accountId)
      account_name := r.accountName
      salesrep := (r.salesrepName.getD "")
      subtotal := r.subtotal.getD 0
      job_description := r.jobDescription
      account_id := r.accountId }

/-- `WHERE` clause of `get_estimates_created`: estimates ordered in the
period (no `invoice` join, so only `ib.isdeleted` is checked). -/
def estimatesFilter (s e : Int) (r : InvRow) : Bool :=
  (match r.ordereddate with | some d => decide (s ≤ d) && decide (d ≤ e) | none => false)
  && r.isEstimate && !r.ibDeleted && !r.voided

/-- `get_estimates_created` (lines 248-303): `top_estimates`, the top 10
created estimates by subtotal descending. -/
def get_top_estimates (db : DB) (s e : Int) : List EstimateRec :=
  ((sortRows (fun a b => descOpt a.subtotal b.subtotal)
      (db.invbase.filter (estimatesFilter s e))).map fun r =>
    ({ customer_name := orUnknown (accountTitle db r.accountId)
       account_name := r.accountName
       subtotal := r.subtotal.getD 0
       job_description := r.jobDescription
       account_id := r.accountId } : EstimateRec)).take 10

/-- A highlight as emitted by `_generate_highlights`.  The source renders
a display string from the customer name, job description and amount; the
embedding keeps those source fields (the rendered markup carries no
verified property) together with the account id of the record. -/
structure Highlight where
  htype : String
  customerName : String
  accountId : Option Int
  amount : Int
deriving DecidableEq, Repr

/-- The invoice selection of `_generate_highlights` and of the shown-record
loop of `assemble_export_data` (both compute
the filter by `EXCLUDED_ACCOUNT_IDS` followed by the `[:3]` slice). -/
def selectedHighlightInvoices (invoices : List InvoiceRec) : List InvoiceRec :=
  (invoices.filter fun inv => pyNotInExcluded inv.account_id).take 3

/-- The estimate selection (`[:2]` of the filtered `top_estimates`). -/
def selectedHighlightEstimates (ests : List EstimateRec) : List EstimateRec :=
  (ests.filter fun est => pyNotInExcluded est.account_id).take 2

/-- `_generate_highlights` (lines 1452-1506): top three non-excluded
invoices, then top two non-excluded estimates. -/
def generate_highlights (invoices : List InvoiceRec) (ests : List EstimateRec) :
    List Highlight :=
  ((selectedHighlightInvoices invoices).map fun inv =>
    { htype := "invoice", customerName := inv.customer_name
      accountId := inv.account_id, amount := inv.subtotal })
  ++ ((selectedHighlightEstimates ests).map fun est =>
    { htype := "estimate", customerName := est.customer_name
      accountId := est.account_id, amount := est.subtotal })

/-- The `biggestOrder` entry of the payload: the first invoice of the
already-sorted list, unfiltered. -/
structure BiggestOrder where
  accountName : Option String
  amount : Int
  salesRep : String
deriving DecidableEq, Repr

/-- The `shownInsights` record of the payload (`ShownRecord`).  Python
builds a `set` of ids, a deduplicated name list and a deduplicated type
list; sets model all three. -/
structure ShownRecord where
  accountIds : Finset Int
  accountNames : Finset String
  insightTypes : Finset InsightType
deriving DecidableEq

/-- The payload fields the claims refer to (`assemble_export_data` also
passes through metrics, tables and raw query results that no claim
mentions). -/
structure Payload where
  exportDate : Int
  highlights : List Highlight
  biggestOrder : Option BiggestOrder
  aiInsights : List Insight
  shownInsights : ShownRecord
deriving DecidableEq

/-- The shown-record loop of `assemble_export_data` (lines 1363-1398):
ids and names from the first three non-excluded invoices and first two
non-excluded estimates, gated on a truthy account id; ids from insight
items with a truthy account id; item names when truthy; the types of the
insights present. -/
def shownRecordOf (invoices : List InvoiceRec) (ests : List EstimateRec)
    (ai : List Insight) : ShownRecord :=
  let shownInv := (selectedHighlightInvoices invoices).filter fun inv =>
    truthyId inv.account_id
  let shownEst := (selectedHighlightEstimates ests).filter fun est =>
    truthyId est.account_id
  let items := ai.flatMap (·.items)
  { accountIds :=
      (shownInv.filterMap (·.account_id)).toFinset
      ∪ (shownEst.filterMap (·.account_id)).toFinset
      ∪ ((items.filter fun it => truthyId it.accountId).filterMap (·.accountId)).toFinset
    accountNames :=
      (shownInv.map (·.customer_name)
        ++ shownEst.map (·.customer_name)
        ++ (items.filter fun it => it.name != "").map (·.name)).toFinset
    insightTypes := (ai.map (·.type)).toFinset }

/-- `assemble_export_data` (lines 1323-1449), restricted to the payload
fields the claims mention. -/
def assemble_export_data (target_date : Int) (invoices : List InvoiceRec)
    (ests : List EstimateRec) (ai : List Insight) : Payload :=
  { exportDate := target_date
    highlights := generate_highlights invoices ests
    biggestOrder := invoices.head?.map fun top =>
      { accountName := top.account_name
        amount := top.subtotal
        salesRep := top.salesrep }
    aiInsights := ai
    shownInsights := shownRecordOf invoices ests ai }

/- ------------------------------------------------------------------
   Freshness oracle and main flow
   ------------------------------------------------------------------ -/

/-- Outcome of the HTTP call of `get_recently_shown_accounts`: the
configuration may be missing, the request may fail (network error or
timeout), the JSON body may fail to parse, or a list of account ids is
returned. -/
inductive OracleOutcome where
  | missingConfig
  | requestFailure
  | parseFailure
  | ok (accountIds : List Int)
deriving DecidableEq, Repr

/-- The oracle outcomes the source handles by degrading: missing
configuration, `requests.exceptions.RequestException` (network error or
timeout), or a response-parsing error. -/
def OracleOutcome.isFailure : OracleOutcome → Prop
  | .ok _ => False
  | _ => True

instance : DecidablePred OracleOutcome.isFailure := fun o => by
  cases o <;> simp [OracleOutcome.isFailure] <;> infer_instance

/-- `get_recently_shown_accounts` (lines 1238-1289): the set of account
ids from a successful response; the empty set on every failure path. -/
def get_recently_shown_accounts : OracleOutcome → Finset Int
  | .ok ids => ids.toFinset
  | _ => ∅

/-- The freshness step of `main` (lines 1557-1560):
`recently_shown = set()`, then fetched only when not in dry-run mode.
The second component counts oracle fetch attempts (network calls). -/
def resolveRecentlyShown (dryRun : Bool) (o : OracleOutcome) : Finset Int × Nat :=
  if dryRun then (∅, 0) else (get_recently_shown_accounts o, 1)

/-- The rest of `main` downstream of the freshness fetch: resolve the
period, run the core queries, gather the daily insights with the
given exclusions, and assemble the payload (export date = end date). -/
def runWithExclusions (db : DB) (today : Int) (recent : Finset Int) : Payload :=
  let r := get_target_date_range today
  let invoices := get_completed_invoices db r.1 r.2.1
  let ests := get_top_estimates db r.1 r.2.1
  let ai := get_ai_insights_pure db today (some recent) (weekday today)
  assemble_export_data r.2.1 invoices ests ai

/-- One full run of `main`: payload plus the number of oracle network
calls made. -/
def runExport (db : DB) (today : Int) (dryRun : Bool) (o : OracleOutcome) :
    Payload × Nat :=
  let rs := resolveRecentlyShown dryRun o
  (runWithExclusions db today rs.1, rs.2)

/-- The `ExclusionSet` of a run: the permanently excluded account ids
unioned with the freshness-oracle exclusions (spec §3). -/
def runExclusionSet (recent : Finset Int) : Finset Int :=
  EXCLUDED_ACCOUNT_IDS.toFinset ∪ recent

/-- The claim-side reading of the ShownRecord account names (claim C8,
from the spec words): the union of the names drawn from the emitted
highlights and from the items of all emitted insight blocks. -/
def claimedShownNames (invoices : List InvoiceRec) (ests : List EstimateRec)
    (ai : List Insight) : Finset String :=
  ((generate_highlights invoices ests).map (·.customerName)).toFinset
  ∪ ((ai.flatMap (·.items)).map (·.name)).toFinset

/-- The claim-side reading of the ShownRecord account ids (claim C8):
the union of the account ids attached to the emitted highlights and
insight items. -/
def claimedShownIds (invoices : List InvoiceRec) (ests : List EstimateRec)
    (ai : List Insight) : Finset Int :=
  ((generate_highlights invoices ests).filterMap (·.accountId)).toFinset
  ∪ ((ai.flatMap (·.items)).filterMap (·.accountId)).toFinset

/- ------------------------------------------------------------------
   General helper lemmas
   ------------------------------------------------------------------ -/

theorem mem_orderedInsert {le : α → α → Bool} {a x : α} {l : List α} :
    x ∈ orderedInsert le a l ↔ x = a ∨ x ∈ l := by
  induction l with
  | nil => simp [orderedInsert]
  | cons b l ih =>
    simp only [orderedInsert]
    split
    · simp
    · simp only [List.mem_cons, ih]
      tauto

theorem mem_sortRows {le : α → α → Bool} {l : List α} {x : α} :
    x ∈ sortRows le l ↔ x ∈ l := by
  induction l with
  | nil => simp [sortRows]
  | cons a l ih =>
    simp only [sortRows, mem_orderedInsert, ih, List.mem_cons]

theorem mkBlock_items {t : InsightType} {ti ms : String}
    {items : List InsightItem} {b : Insight}
    (h : mkBlock t ti ms items = some b) :
    b.items = items ∧ items ≠ [] := by
  unfold mkBlock at h
  split at h
  · exact absurd h (by simp)
  · rename_i hne
    cases h
    exact ⟨rfl, by simpa using hne⟩

theorem notInExcluded_spec {aid : Option Int} {ex : Finset Int}
    (h : notInExcluded aid ex = true) : ∃ a, aid = some a ∧ a ∉ ex := by
  cases aid with
  | none => simp [notInExcluded] at h
  | some a => exact ⟨a, rfl, by simpa [notInExcluded] using h⟩

/-- The catalog loop is the `filterMap` of the per-type emitted block. -/
def emittedOf (results : InsightType → Except String (Option Insight))
    (t : InsightType) : Option Insight :=
  match results t with
  | .ok (some b) => some b
  | _ => none

theorem foldl_collect (g : InsightType → Option Insight) :
    ∀ (l : List InsightType) (acc : List Insight),
      l.foldl (fun acc t =>
        match g t with
        | some b => acc ++ [b]
        | none => acc) acc = acc ++ l.filterMap g := by
  intro l
  induction l with
  | nil => simp
  | cons t ts ih =>
    intro acc
    cases hg : g t <;> simp [List.filterMap_cons, hg, ih]

theorem get_ai_insights_eq_filterMap
    (results : InsightType → Except String (Option Insight)) (day : Int) :
    get_ai_insights results day = (todayTypes day).filterMap (emittedOf results) := by
  unfold get_ai_insights
  have hfun : (fun (acc : List Insight) (t : InsightType) =>
      match results t with
      | .ok (some b) => acc ++ [b]
      | .ok none => acc
      | .error _ => acc) = fun acc t =>
      match emittedOf results t with
      | some b => acc ++ [b]
      | none => acc := by
    funext acc t
    unfold emittedOf
    cases results t with
    | error e => rfl
    | ok ob => cases ob <;> rfl
  rw [hfun, foldl_collect]
  simp

theorem mem_get_ai_insights_pure {db : DB} {today : Int}
    {excl : Option (Finset Int)} {day : Int} {ins : Insight}
    (h : ins ∈ get_ai_insights_pure db today excl day) :
    ∃ t ∈ todayTypes day, runGenerator t db today false excl = some ins := by
  unfold get_ai_insights_pure at h
  rw [get_ai_insights_eq_filterMap] at h
  obtain ⟨t, ht, hemit⟩ := List.mem_filterMap.mp h
  refine ⟨t, ht, ?_⟩
  simp only [emittedOf] at hemit
  cases hr : runGenerator t db today false excl with
  | none => rw [hr] at hemit; exact Option.noConfusion hemit
  | some b => rw [hr] at hemit; exact hemit

/- ------------------------------------------------------------------
   C2 — Period Resolver
   ------------------------------------------------------------------ -/

/-- C2: if today is Monday (weekday 0) the resolver returns the three-day
span Friday through Sunday (start = today - 3, end = yesterday) with the
multi-day-catchup flag set; on every other weekday it returns the
single-day span start = end = yesterday with the flag clear. -/
theorem period_resolver_correct (today : Int) :
    (weekday today = 0 →
      get_target_date_range today = (today - 3, today - 1, true) ∧
      weekday (today - 3) = 4 ∧ weekday (today - 1) = 6) ∧
    (weekday today ≠ 0 →
      get_target_date_range today = (today - 1, today - 1, false)) := by
  unfold get_target_date_range weekday
  constructor
  · intro h
    refine ⟨?_, ?_, ?_⟩
    · rw [if_pos h]
      have h3 : today - 1 - 2 = today - 3 := by omega
      rw [h3]
    · omega
    · omega
  · intro h
    rw [if_neg h]

/-- C2 witness: day 7 is a Monday and resolves to the span (4, 6) with the
catchup flag; day 8 is a Tuesday and resolves to the single day 7. -/
theorem period_resolver_correct_witness :
    get_target_date_range 7 = (7 - 3, 7 - 1, true) ∧
    get_target_date_range 8 = (8 - 1, 8 - 1, false) :=
  ⟨((period_resolver_correct 7).1 (by decide)).1,
   (period_resolver_correct 8).2 (by decide)⟩

/- ------------------------------------------------------------------
   C4 — Rotation Scheduler
   ------------------------------------------------------------------ -/

/-- C4: for every weekday the scheduler returns a non-empty list of known
insight types; an unmapped weekday falls back to the full registry; and
across the seven table entries every one of the five insight types
appears at least once. -/
theorem rotation_scheduler_correct :
    (∀ d : Int, todayTypes d ≠ [] ∧ ∀ t ∈ todayTypes d, t ∈ INSIGHT_REGISTRY) ∧
    (∀ d : Int, INSIGHT_ROTATION d = none → todayTypes d = INSIGHT_REGISTRY) ∧
    (∀ t : InsightType, ∃ d : Int, 0 ≤ d ∧ d ≤ 6 ∧ t ∈ todayTypes d) := by
  refine ⟨?_, ?_, ?_⟩
  · intro d
    constructor
    · unfold todayTypes INSIGHT_ROTATION
      split_ifs <;> simp [INSIGHT_REGISTRY]
    · intro t _
      cases t <;> simp [INSIGHT_REGISTRY]
  · intro d h
    unfold todayTypes
    rw [h]
    rfl
  · intro t
    cases t with
    | anniversary_reorders => exact ⟨0, by decide, by decide, by decide⟩
    | lapsed_accounts => exact ⟨1, by decide, by decide, by decide⟩
    | past_due_accounts => exact ⟨1, by decide, by decide, by decide⟩
    | hot_streak_accounts => exact ⟨0, by decide, by decide, by decide⟩
    | high_value_estimates => exact ⟨0, by decide, by decide, by decide⟩

/-- C4 witness: weekday 9 has no rotation entry and falls back to the full
registry, which the theorem derives without throwing. -/
theorem rotation_scheduler_correct_witness :
    INSIGHT_ROTATION 9 = none ∧ todayTypes 9 = INSIGHT_REGISTRY :=
  ⟨by decide, rotation_scheduler_correct.2.1 9 (by decide)⟩

/- ------------------------------------------------------------------
   C6 — dry run skips the freshness oracle
   ------------------------------------------------------------------ -/

/-- C6: a dry run performs zero oracle fetches (no network call) and runs
the whole pipeline with the empty freshness exclusion set, whatever the
oracle would have answered. -/
theorem dry_run_skips_oracle (db : DB) (today : Int) (o : OracleOutcome) :
    resolveRecentlyShown true o = (∅, 0) ∧
    runExport db today true o = (runWithExclusions db today ∅, 0) :=
  ⟨rfl, rfl⟩

/- ------------------------------------------------------------------
   C9 — determinism of the Insight Catalog
   ------------------------------------------------------------------ -/

/-- C9: the Insight Catalog is a pure function of the data source, the
current date and the weekday — the only ambient inputs of the source
(`datetime.now()`) are explicit parameters here, and no randomness is
involved — so two runs on identical inputs with the empty freshness
exclusion set produce identical insight sequences. -/
theorem insight_catalog_deterministic (db db' : DB) (today today' : Int)
    (day day' : Int) (h1 : db = db') (h2 : today = today') (h3 : day = day') :
    get_ai_insights_pure db today (some ∅) day =
      get_ai_insights_pure db' today' (some ∅) day' := by
  subst h1; subst h2; subst h3; rfl

def dbC9 : DB := { invbase := [], accounts := [] }

/-- C9 witness: two runs of the catalog on the same concrete database,
date and weekday agree. -/
theorem insight_catalog_deterministic_witness :
    get_ai_insights_pure dbC9 702 (some ∅) 2 =
      get_ai_insights_pure dbC9 702 (some ∅) 2 :=
  insight_catalog_deterministic dbC9 dbC9 702 702 2 2 rfl rfl rfl

/- ------------------------------------------------------------------
   C3 — a generator emits none or a block of 1 to 5 items
   ------------------------------------------------------------------ -/

theorem items_length_le_five (qfail : Bool) (f : α → InsightItem) (l : List α) :
    (if qfail then [] else (l.take 5).map f).length ≤ 5 := by
  cases qfail
  · simp [List.length_take]
  · simp

/-- C3: every generator, on every database, date, exclusion set and query
outcome, returns either no insight or a block with between 1 and 5
items; a block with zero items is never returned. -/
theorem generator_block_has_1_to_5_items (t : InsightType) (db : DB)
    (today : Int) (qfail : Bool) (excl : Option (Finset Int)) :
    runGenerator t db today qfail excl = none ∨
    ∃ b, runGenerator t db today qfail excl = some b ∧
      1 ≤ b.items.length ∧ b.items.length ≤ 5 := by
  cases hg : runGenerator t db today qfail excl with
  | none => exact Or.inl rfl
  | some b =>
    refine Or.inr ⟨b, rfl, ?_⟩
    cases t with
    | anniversary_reorders =>
      simp only [runGenerator, get_anniversary_reorders] at hg
      obtain ⟨hbi, hne⟩ := mkBlock_items hg
      rw [hbi]
      exact ⟨List.length_pos.mpr hne, items_length_le_five _ _ _⟩
    | lapsed_accounts =>
      simp only [runGenerator, get_lapsed_accounts] at hg
      obtain ⟨hbi, hne⟩ := mkBlock_items hg
      rw [hbi]
      exact ⟨List.length_pos.mpr hne, items_length_le_five _ _ _⟩
    | past_due_accounts =>
      simp only [runGenerator, get_past_due_accounts] at hg
      obtain ⟨hbi, hne⟩ := mkBlock_items hg
      rw [hbi]
      exact ⟨List.length_pos.mpr hne, items_length_le_five _ _ _⟩
    | hot_streak_accounts =>
      simp only [runGenerator, get_hot_streak_accounts] at hg
      obtain ⟨hbi, hne⟩ := mkBlock_items hg
      rw [hbi]
      exact ⟨List.length_pos.mpr hne, items_length_le_five _ _ _⟩
    | high_value_estimates =>
      simp only [runGenerator, get_high_value_pending_estimates] at hg
      obtain ⟨hbi, hne⟩ := mkBlock_items hg
      rw [hbi]
      exact ⟨List.length_pos.mpr hne, items_length_le_five _ _ _⟩

/- ------------------------------------------------------------------
   C5 — freshness-oracle failure degrades to the empty set
   ------------------------------------------------------------------ -/

/-- C5: on any network, timeout, parse, or configuration failure the
freshness fetch returns the empty set, the exclusion set the generators
apply degrades to the permanently-excluded ids alone, and the run still
completes, producing the same payload as a run with no freshness
exclusions. -/
theorem oracle_failure_returns_empty (db : DB) (today : Int)
    (o : OracleOutcome) (hf : o.isFailure) :
    get_recently_shown_accounts o = ∅ ∧
    allExcluded (some (get_recently_shown_accounts o)) = EXCLUDED_ACCOUNT_IDS.toFinset ∧
    runExport db today false o = (runWithExclusions db today ∅, 1) := by
  cases o with
  | ok ids => exact absurd hf (by simp [OracleOutcome.isFailure])
  | missingConfig => exact ⟨rfl, by simp [allExcluded, get_recently_shown_accounts], rfl⟩
  | requestFailure => exact ⟨rfl, by simp [allExcluded, get_recently_shown_accounts], rfl⟩
  | parseFailure => exact ⟨rfl, by simp [allExcluded, get_recently_shown_accounts], rfl⟩

def dbEmpty : DB := { invbase := [], accounts := [] }

/-- C5 witness: a timed-out request is a failure outcome, and the run with
it completes with the permanent exclusions only. -/
theorem oracle_failure_returns_empty_witness :
    OracleOutcome.isFailure .requestFailure ∧
    runExport dbEmpty 1 false .requestFailure = (runWithExclusions dbEmpty 1 ∅, 1) :=
  ⟨trivial, (oracle_failure_returns_empty dbEmpty 1 .requestFailure trivial).2.2⟩

/- ------------------------------------------------------------------
   C7 — one generator failure never aborts the batch
   ------------------------------------------------------------------ -/

/-- C7: a generator whose query raises contributes no insight (its own
`except` leaves `items` empty, and at the catalog level an exception is
caught so the run equals the run in which that generator merely returned
nothing); every other generator in the day rotation still runs, and
every block another generator emits is in the output. -/
theorem generator_failure_isolated
    (results : InsightType → Except String (Option Insight)) (day : Int)
    (t : InsightType) (e : String) (hf : results t = .error e) :
    (∀ g db today excl, runGenerator g db today true excl = none) ∧
    get_ai_insights results day =
      get_ai_insights (fun g => if g = t then .ok none else results g) day ∧
    (∀ g ∈ todayTypes day, ∀ b, results g = .ok (some b) →
      b ∈ get_ai_insights results day) := by
  refine ⟨?_, ?_, ?_⟩
  · intro g db today excl
    cases g <;> rfl
  · rw [get_ai_insights_eq_filterMap, get_ai_insights_eq_filterMap]
    apply List.filterMap_congr
    intro x hx
    by_cases hxt : x = t
    · subst hxt
      simp [emittedOf, hf]
    · simp [emittedOf, hxt]
  · intro g hg b hb
    rw [get_ai_insights_eq_filterMap]
    exact List.mem_filterMap.mpr ⟨g, hg, by simp [emittedOf, hb]⟩

def blockPD : Insight :=
  { type := .past_due_accounts
    title := "Past Due Accounts"
    message := "Friendly payment reminder needed!"
    items := [{ name := "Gamma", value := some 40, accountId := some 7 }] }

def resultsW : InsightType → Except String (Option Insight) := fun g =>
  match g with
  | .lapsed_accounts => .error "database error"
  | .past_due_accounts => .ok (some blockPD)
  | _ => .ok none

/-- C7 witness: on day 1 (rotation lapsed then past-due) with the lapsed
generator raising, the past-due block is still emitted. -/
theorem generator_failure_isolated_witness :
    resultsW .lapsed_accounts = .error "database error" ∧
    get_ai_insights resultsW 1 = [blockPD] ∧
    blockPD ∈ get_ai_insights resultsW 1 :=
  ⟨rfl, by decide,
   (generator_failure_isolated resultsW 1 .lapsed_accounts "database error"
     rfl).2.2 .past_due_accounts (by decide) blockPD rfl⟩

/- ------------------------------------------------------------------
   Exclusion-membership lemmas for the five generators
   ------------------------------------------------------------------ -/

theorem mem_take_sort_filter {p : α → Bool} {le : α → α → Bool} {l : List α}
    {x : α} (h : x ∈ (sortRows le (l.filter p)).take 5) :
    x ∈ l ∧ p x = true := by
  have h1 := List.mem_of_mem_take h
  rw [mem_sortRows] at h1
  exact List.mem_filter.mp h1

theorem mem_items_if {qfail : Bool} {f : α → InsightItem} {l : List α}
    {it : InsightItem} (h : it ∈ (if qfail then [] else l.map f)) :
    ∃ x ∈ l, f x = it := by
  cases qfail
  · exact List.mem_map.mp h
  · exact absurd h (by simp)

theorem groupStats_id_mem {rows : List InvRow} {st : AcctStats}
    (h : st ∈ groupStats rows) : ∃ r ∈ rows, r.accountId = some st.accountId := by
  unfold groupStats at h
  obtain ⟨i, hi, rfl⟩ := List.mem_map.mp h
  rw [List.mem_dedup] at hi
  obtain ⟨r, hr, hri⟩ := List.mem_filterMap.mp hi
  exact ⟨r, hr, hri⟩

theorem anniversary_items_not_excluded {db : DB} {today : Int} {qfail : Bool}
    {excl : Option (Finset Int)} {b : Insight}
    (hb : get_anniversary_reorders db today qfail excl = some b)
    {it : InsightItem} (hit : it ∈ b.items) :
    ∃ a, it.accountId = some a ∧ a ∉ allExcluded excl := by
  simp only [get_anniversary_reorders] at hb
  obtain ⟨hbi, -⟩ := mkBlock_items hb
  rw [hbi] at hit
  obtain ⟨r, hr, hfr⟩ := mem_items_if hit
  obtain ⟨-, hp⟩ := mem_take_sort_filter hr
  have hnotin : notInExcluded r.accountId (allExcluded excl) = true := by
    simp only [anniversaryFilter, Bool.and_eq_true] at hp
    tauto
  obtain ⟨a, ha, hna⟩ := notInExcluded_spec hnotin
  refine ⟨a, ?_, hna⟩
  rw [← hfr]
  exact ha

theorem high_value_items_not_excluded {db : DB} {qfail : Bool}
    {excl : Option (Finset Int)} {b : Insight}
    (hb : get_high_value_pending_estimates db qfail excl = some b)
    {it : InsightItem} (hit : it ∈ b.items) :
    ∃ a, it.accountId = some a ∧ a ∉ allExcluded excl := by
  simp only [get_high_value_pending_estimates] at hb
  obtain ⟨hbi, -⟩ := mkBlock_items hb
  rw [hbi] at hit
  obtain ⟨r, hr, hfr⟩ := mem_items_if hit
  obtain ⟨-, hp⟩ := mem_take_sort_filter hr
  have hnotin : notInExcluded r.accountId (allExcluded excl) = true := by
    simp only [highValueFilter, Bool.and_eq_true] at hp
    tauto
  obtain ⟨a, ha, hna⟩ := notInExcluded_spec hnotin
  refine ⟨a, ?_, hna⟩
  rw [← hfr]
  exact ha

theorem past_due_items_not_excluded {db : DB} {qfail : Bool}
    {excl : Option (Finset Int)} {b : Insight}
    (hb : get_past_due_accounts db qfail excl = some b)
    {it : InsightItem} (hit : it ∈ b.items) :
    ∃ a, it.accountId = some a ∧ a ∉ allExcluded excl := by
  simp only [get_past_due_accounts] at hb
  obtain ⟨hbi, -⟩ := mkBlock_items hb
  rw [hbi] at hit
  obtain ⟨r, hr, hfr⟩ := mem_items_if hit
  obtain ⟨-, hp⟩ := mem_take_sort_filter hr
  have hnotin : r.id ∉ allExcluded excl := by
    simp only [Bool.and_eq_true, decide_eq_true_eq] at hp
    tauto
  refine ⟨r.id, ?_, hnotin⟩
  rw [← hfr]

theorem lapsed_items_not_excluded {db : DB} {today : Int} {qfail : Bool}
    {excl : Option (Finset Int)} {b : Insight}
    (hb : get_lapsed_accounts db today qfail excl = some b)
    {it : InsightItem} (hit : it ∈ b.items) :
    ∃ a, it.accountId = some a ∧ a ∉ allExcluded excl := by
  simp only [get_lapsed_accounts] at hb
  obtain ⟨hbi, -⟩ := mkBlock_items hb
  rw [hbi] at hit
  obtain ⟨st, hst, hfst⟩ := mem_items_if hit
  obtain ⟨hin, -⟩ := mem_take_sort_filter hst
  obtain ⟨r, hr, hra⟩ := groupStats_id_mem hin
  rw [List.mem_filter] at hr
  have hnotin : notInExcluded r.accountId (allExcluded excl) = true := by
    simp only [lapsedBaseFilter, Bool.and_eq_true] at hr
    tauto
  obtain ⟨a, ha, hna⟩ := notInExcluded_spec hnotin
  have hasu : a = st.accountId := by
    rw [ha] at hra
    exact Option.some.inj hra
  refine ⟨st.accountId, ?_, hasu ▸ hna⟩
  rw [← hfst]

theorem hot_streak_items_not_excluded {db : DB} {today : Int} {qfail : Bool}
    {excl : Option (Finset Int)} {b : Insight}
    (hb : get_hot_streak_accounts db today qfail excl = some b)
    {it : InsightItem} (hit : it ∈ b.items) :
    ∃ a, it.accountId = some a ∧ a ∉ allExcluded excl := by
  simp only [get_hot_streak_accounts] at hb
  obtain ⟨hbi, -⟩ := mkBlock_items hb
  rw [hbi] at hit
  obtain ⟨h, hh, hfh⟩ := mem_items_if hit
  obtain ⟨hin, -⟩ := mem_take_sort_filter hh
  obtain ⟨i, hi, rfl⟩ := List.mem_map.mp hin
  rw [List.mem_dedup] at hi
  obtain ⟨r, hr, hri⟩ := List.mem_filterMap.mp hi
  rw [List.mem_filter] at hr
  have hnotin : notInExcluded r.accountId (allExcluded excl) = true := by
    simp only [hotRecentFilter, Bool.and_eq_true] at hr
    tauto
  obtain ⟨a, ha, hna⟩ := notInExcluded_spec hnotin
  have hai : a = i := by
    rw [ha] at hri
    exact Option.some.inj hri
  refine ⟨i, ?_, hai ▸ hna⟩
  rw [← hfh]

/-- Dispatch of the per-generator lemmas: every item of any emitted block
carries an account id outside the exclusion set the generator applied. -/
theorem runGenerator_items_not_excluded {t : InsightType} {db : DB}
    {today : Int} {qfail : Bool} {excl : Option (Finset Int)} {b : Insight}
    (hb : runGenerator t db today qfail excl = some b)
    {it : InsightItem} (hit : it ∈ b.items) :
    ∃ a, it.accountId = some a ∧ a ∉ allExcluded excl := by
  cases t with
  | anniversary_reorders => exact anniversary_items_not_excluded hb hit
  | lapsed_accounts => exact lapsed_items_not_excluded hb hit
  | past_due_accounts => exact past_due_items_not_excluded hb hit
  | hot_streak_accounts => exact hot_streak_items_not_excluded hb hit
  | high_value_estimates => exact high_value_items_not_excluded hb hit

/- ------------------------------------------------------------------
   C10 — the permanent exclusions are always applied
   ------------------------------------------------------------------ -/

/-- C10: for every generator and every freshness parameter (including the
absent one) the applied exclusion set contains the static permanently
excluded account ids, and every item of any emitted block carries an
account id outside that applied set — so a permanently excluded account
never appears in an insight item. -/
theorem generators_enforce_permanent_exclusions :
    (∀ excl : Option (Finset Int), EXCLUDED_ACCOUNT_IDS.toFinset ⊆ allExcluded excl) ∧
    (∀ (t : InsightType) (db : DB) (today : Int) (qfail : Bool)
       (excl : Option (Finset Int)) (b : Insight),
       runGenerator t db today qfail excl = some b →
       ∀ it ∈ b.items, ∃ a, it.accountId = some a ∧ a ∉ allExcluded excl) := by
  constructor
  · intro excl
    unfold allExcluded
    exact Finset.subset_union_left
  · intro t db today qfail excl b hb it hit
    exact runGenerator_items_not_excluded hb hit

/- Witness data: a database on which the anniversary generator emits a
block for account 42 on day 702 (a Wednesday). -/

def rowAnniv : InvRow :=
  { invoicenumber := 1, accountId := some 42, subtotal := some 2500
    jobDescription := some "Banners", accountName := some "Acme"
    takenby := none, salesrepName := none
    pickupdate := some 370, ordereddate := some 369
    isEstimate := false, onpendinglist := false
    ibDeleted := false, iDeleted := false, voided := false }

def rowRecent : InvRow :=
  { invoicenumber := 2, accountId := some 43, subtotal := some 100
    jobDescription := none, accountName := some "Beta"
    takenby := none, salesrepName := some "Rep"
    pickupdate := some 701, ordereddate := some 700
    isEstimate := false, onpendinglist := false
    ibDeleted := false, iDeleted := false, voided := false }

def dbW : DB :=
  { invbase := [rowAnniv, rowRecent]
    accounts :=
      [{ id := 42, title := some "Acme Corp", balance30day := none
         balance60day := none, balance90day := none, balance := none
         isdeleted := false },
       { id := 43, title := some "Beta LLC", balance30day := none
         balance60day := none, balance90day := none, balance := none
         isdeleted := false }] }

def itemAnniv : InsightItem :=
  { name := "Acme Corp", value := some 2500, accountId := some 42 }

def blockAnniv : Insight :=
  { type := .anniversary_reorders
    title := "Anniversary Reorder Opportunities"
    message := "These customers had large orders 10-11 months ago - time to follow up!"
    items := [itemAnniv] }

/-- C10 witness: the anniversary generator run with no freshness parameter
emits a block whose item account 42 is outside the applied exclusions. -/
theorem generators_enforce_permanent_exclusions_witness :
    runGenerator .anniversary_reorders dbW 702 false none = some blockAnniv ∧
    itemAnniv ∈ blockAnniv.items ∧
    ∃ a, itemAnniv.accountId = some a ∧ a ∉ allExcluded none :=
  ⟨by decide, by decide,
   generators_enforce_permanent_exclusions.2 .anniversary_reorders dbW 702
     false none blockAnniv (by decide) itemAnniv (by decide)⟩

/- ------------------------------------------------------------------
   C1 — exclusions at run level: counterexample and amended claim
   ------------------------------------------------------------------ -/

def rowC1 : InvRow :=
  { invoicenumber := 3, accountId := some 555, subtotal := some 100
    jobDescription := some "Flyers", accountName := some "Acme"
    takenby := none, salesrepName := none
    pickupdate := some 0, ordereddate := some 0
    isEstimate := false, onpendinglist := false
    ibDeleted := false, iDeleted := false, voided := false }

def acctC1 : AccountRow :=
  { id := 555, title := some "Acme", balance30day := none
    balance60day := none, balance90day := none, balance := none
    isdeleted := false }

def dbC1 : DB := { invbase := [rowC1], accounts := [acctC1] }

def hlC1 : Highlight :=
  { htype := "invoice", customerName := "Acme", accountId := some 555, amount := 100 }

/-- C1 counterexample: in a run whose freshness-oracle exclusions are
{555}, the top invoice of account 555 still appears among the emitted
highlights even though 555 is in the ExclusionSet of that run —
`_generate_highlights` filters only by the permanent exclusions, refuting
the claim as stated. -/
theorem run_exclusion_claim_counterexample :
    hlC1 ∈ (runWithExclusions dbC1 1 {555}).highlights ∧
    hlC1.accountId = some 555 ∧ (555 : Int) ∈ runExclusionSet {555} := by
  refine ⟨by decide, rfl, by decide⟩

/-- C1 (amended): in every run, every account id in an item of an emitted
insight block is absent from the ExclusionSet of the run (permanent ids
unioned with the freshness exclusions); every account id underlying an
emitted highlight is absent from the permanently-excluded set — in
particular a permanently excluded account that is the top invoice never
appears in highlights — but highlights are not filtered by the
freshness-oracle exclusions. -/
theorem run_highlights_and_insights_exclusions (db : DB) (today : Int)
    (recent : Finset Int) :
    (∀ h ∈ (runWithExclusions db today recent).highlights,
       ∀ a, h.accountId = some a → a ∉ EXCLUDED_ACCOUNT_IDS.toFinset) ∧
    (∀ ins ∈ (runWithExclusions db today recent).aiInsights,
       ∀ it ∈ ins.items, ∃ a, it.accountId = some a ∧ a ∉ runExclusionSet recent) := by
  constructor
  · intro h hh a ha
    have hhl : (runWithExclusions db today recent).highlights =
        generate_highlights
          (get_completed_invoices db (get_target_date_range today).1
            (get_target_date_range today).2.1)
          (get_top_estimates db (get_target_date_range today).1
            (get_target_date_range today).2.1) := rfl
    rw [hhl] at hh
    unfold generate_highlights at hh
    rcases List.mem_append.mp hh with hinv | hest
    · obtain ⟨inv, hmem, hfi⟩ := List.mem_map.mp hinv
      have hq : pyNotInExcluded inv.account_id = true :=
        (List.mem_filter.mp (List.mem_of_mem_take hmem)).2
      have hacc : inv.account_id = some a := by
        rw [← hfi] at ha
        exact ha
      rw [hacc] at hq
      simp only [pyNotInExcluded, Bool.not_eq_true'] at hq
      simp [List.mem_toFinset]
      simpa using hq
    · obtain ⟨est, hmem, hfi⟩ := List.mem_map.mp hest
      have hq : pyNotInExcluded est.account_id = true :=
        (List.mem_filter.mp (List.mem_of_mem_take hmem)).2
      have hacc : est.account_id = some a := by
        rw [← hfi] at ha
        exact ha
      rw [hacc] at hq
      simp only [pyNotInExcluded, Bool.not_eq_true'] at hq
      simp [List.mem_toFinset]
      simpa using hq
  · intro ins hins it hit
    have hai : (runWithExclusions db today recent).aiInsights =
        get_ai_insights_pure db today (some recent) (weekday today) := rfl
    rw [hai] at hins
    obtain ⟨t, -, hgen⟩ := mem_get_ai_insights_pure hins
    exact runGenerator_items_not_excluded hgen hit

/-- C1 witness: on the witness database the run emits an insight whose
item account 42 is outside the run ExclusionSet. -/
theorem run_highlights_and_insights_exclusions_witness :
    blockAnniv ∈ (runWithExclusions dbW 702 ∅).aiInsights ∧
    itemAnniv ∈ blockAnniv.items ∧
    ∃ a, itemAnniv.accountId = some a ∧ a ∉ runExclusionSet ∅ :=
  ⟨by decide, by decide,
   (run_highlights_and_insights_exclusions dbW 702 ∅).2 blockAnniv (by decide)
     itemAnniv (by decide)⟩

/- ------------------------------------------------------------------
   C8 — ShownRecord contents: counterexample and amended claim
   ------------------------------------------------------------------ -/

def invRecNoId : InvoiceRec :=
  { customer_name := "Acme", account_name := none, salesrep := ""
    subtotal := 100, job_description := none, account_id := none }

/-- C8 counterexample: an invoice without an account id is emitted as a
highlight displaying the name Acme, yet the assembled ShownRecord
contains neither that name nor any id — the shown-record loop skips a
highlight record whose account id is not truthy, so the ShownRecord is
not the full union the claim states. -/
theorem shown_record_claim_counterexample :
    (generate_highlights [invRecNoId] []).map (fun h => h.customerName) = ["Acme"] ∧
    (assemble_export_data 0 [invRecNoId] [] []).shownInsights.accountNames ≠
      claimedShownNames [invRecNoId] [] [] :=
  ⟨by decide, by decide⟩

/-- C8 (amended): the ShownRecord of the assembled payload contains
exactly: the account ids of the emitted highlights and insight items
that are truthy (non-null and nonzero); the names of the emitted
highlights carrying such an id together with the non-empty names of all
insight items; and the set of insight types actually emitted (not the
types attempted). -/
theorem shown_record_characterization (td : Int) (invoices : List InvoiceRec)
    (ests : List EstimateRec) (ai : List Insight) :
    (assemble_export_data td invoices ests ai).shownInsights.accountIds =
      (((generate_highlights invoices ests).filter fun h =>
          truthyId h.accountId).filterMap (fun h => h.accountId)).toFinset
        ∪ (((ai.flatMap (·.items)).filter fun it =>
          truthyId it.accountId).filterMap (fun it => it.accountId)).toFinset ∧
    (assemble_export_data td invoices ests ai).shownInsights.accountNames =
      ((((generate_highlights invoices ests).filter fun h =>
          truthyId h.accountId).map (fun h => h.customerName))
        ++ ((ai.flatMap (·.items)).filter fun it => it.name != "").map
          (fun it => it.name)).toFinset ∧
    (assemble_export_data td invoices ests ai).shownInsights.insightTypes =
      (ai.map (·.type)).toFinset := by
  refine ⟨?_, ?_, rfl⟩
  · show (shownRecordOf invoices ests ai).accountIds = _
    unfold shownRecordOf generate_highlights
    simp only [List.filter_append, List.filter_map, List.filterMap_append,
      List.filterMap_map, List.toFinset_append, Function.comp_def]
  · show (shownRecordOf invoices ests ai).accountNames = _
    unfold shownRecordOf generate_highlights
    simp only [List.filter_append, List.filter_map, List.map_append,
      List.map_map, List.toFinset_append, List.append_assoc, Function.comp_def]

end RetrieverDigest
